import Mathlib

/-
Verification of the GreenSpring GPIO dashboard (witai2212/GreenSpring).

The repository ships two variants of the server:
  * the current server (absolute paths + mock mode + MQTT), called the
    second variant below; it implements the reconciliation core of the
    specification (runtime pin map, setPin deltas, retained MQTT publishes,
    readJsonSafe fallbacks);
  * the legacy server.js, called the first variant below (toggle events,
    full-status broadcasts, unguarded config load).

Machine integers of the source are JavaScript numbers; pin numbers and pin
levels are non-negative integers here, modelled as Nat.  JSON documents are
modelled as trees (the JSON.parse / JSON.stringify pair of the platform is a
faithful bijection between wire text and trees, so file contents are kept at
the tree level, with explicit cases for a missing file and for unparsable
text).  JavaScript string operations (trim, toUpperCase, toLowerCase) are
modelled by executable character-list functions with the same behaviour on
the relevant inputs.
-/

namespace GreenSpring

/-- Association-list lookup, first binding wins (JavaScript object / Map
lookup semantics: keys are unique in objects built by the code; on arbitrary
lists the first binding is the visible one). -/
def alookup {α β : Type} [DecidableEq α] (key : α) : List (α × β) → Option β
  | [] => none
  | (k, v) :: rest => if k = key then some v else alookup key rest

/-- Association-list insert with JavaScript object / Map assignment
semantics: an existing key is overwritten in place, a new key is appended at
the end (insertion order is preserved). -/
def ainsert {α β : Type} [DecidableEq α] (key : α) (val : β) :
    List (α × β) → List (α × β)
  | [] => [(key, val)]
  | (k, v) :: rest =>
    if k = key then (key, val) :: rest else (k, v) :: ainsert key val rest

/-- Option-valued traversal of a list (structural, so that proofs and kernel
evaluation both unfold it). -/
def omapM {α β : Type} (f : α → Option β) : List α → Option (List β)
  | [] => some []
  | a :: l =>
    match f a with
    | none => none
    | some b =>
      match omapM f l with
      | none => none
      | some bs => some (b :: bs)

/-- JavaScript String.prototype.toUpperCase on the ASCII range. -/
def jsToUpper (s : String) : String := ⟨s.data.map Char.toUpper⟩

/-- JavaScript String.prototype.toLowerCase on the ASCII range. -/
def jsToLower (s : String) : String := ⟨s.data.map Char.toLower⟩

/-- JavaScript String.prototype.trim: drop whitespace from both ends. -/
def jsTrim (s : String) : String :=
  ⟨((s.data.dropWhile Char.isWhitespace).reverse.dropWhile
      Char.isWhitespace).reverse⟩

/-- Decimal value of a digit string, as JavaScript Number applied to the
digits captured by the set-topic pattern. -/
def digitsToNat (l : List Char) : Nat :=
  l.foldl (fun a c => 10 * a + (c.toNat - 48)) 0

/-- Remove an expected head from a character list; none when the list does
not start with that head. -/
def stripHead : List Char → List Char → Option (List Char)
  | [], l => some l
  | _, [] => none
  | c :: cs, d :: ds => if c = d then stripHead cs ds else none

/-- JSON document trees.  Object fields keep their textual order. -/
inductive Json where
  | null
  | bool (b : Bool)
  | num (n : Int)
  | str (s : String)
  | arr (elems : List Json)
  | obj (fields : List (String × Json))

/-- Property access on a JSON tree (object field lookup; anything else has
no fields). -/
def Json.getField (j : Json) (key : String) : Option Json :=
  match j with
  | .obj fields => alookup key fields
  | _ => none

/-- Contents of one JSON file on disk: absent, present but unparsable, or a
parsed document. -/
inductive FileContent where
  | missing
  | invalid
  | json (doc : Json)

/-- Failure modes of fs.readFileSync followed by JSON.parse. -/
inductive ReadErr where
  | fileMissing
  | parseFailure
  deriving DecidableEq

/-- Read a file and parse it, surfacing the exception. -/
def readAndParse : FileContent → Except ReadErr Json
  | .missing => .error .fileMissing
  | .invalid => .error .parseFailure
  | .json doc => .ok doc

/-- Second variant, readJsonSafe: read and parse a JSON file, returning the
fallback document on any failure (the try/catch swallows both a missing file
and a parse error). -/
def readJsonSafe (fc : FileContent) (fallback : Json) : Json :=
  match readAndParse fc with
  | .ok doc => doc
  | .error _ => fallback

/-- Direction of a line: in or out. -/
inductive Dir where
  | input
  | output
  deriving DecidableEq

/-- State of one GPIO adapter instance.  The mock adapter stores the level
in memory and never fails; a real hardware line can throw on write or read,
which the flags record (the call sites catch those exceptions). -/
structure Gpio where
  number : Nat
  dir : Dir
  value : Nat
  failWrite : Bool
  failRead : Bool
  deriving DecidableEq

/-- Mock adapter constructor: level starts at 0 and operations never
throw. -/
def mockGpio (number : Nat) (d : Dir) : Gpio :=
  { number := number, dir := d, value := 0, failWrite := false,
    failRead := false }

/-- writeSync wrapped in the try/catch of its call sites: on a throwing
adapter the level is left unchanged and the caller proceeds. -/
def Gpio.writeSync (g : Gpio) (v : Nat) : Gpio :=
  if g.failWrite then g else { g with value := v }

/-- readSync wrapped as a fallible read: none models a throw. -/
def Gpio.readSyncRes (g : Gpio) : Option Nat :=
  if g.failRead then none else some g.value

/-- One topology entry of the configuration document: number, label, and
the raw direction string (normalisation happens at registry rebuild). -/
structure PinSpec where
  number : Nat
  label : String
  direction : String
  deriving DecidableEq

/-- The configuration document: an ordered sequence of pin entries. -/
structure Config where
  pins : List PinSpec
  deriving DecidableEq

/-- Runtime metadata of a registered pin. -/
structure PinMeta where
  number : Nat
  direction : Dir
  label : String
  deriving DecidableEq

/-- Runtime pin-map entry: adapter instance paired with its metadata. -/
structure Entry where
  gpio : Gpio
  meta : PinMeta
  deriving DecidableEq

/-- Process environment of the second variant: MQTT topic root, whether an
MQTT client exists (MQTT_URL was set), whether file writes succeed, and the
adapter constructor selected at startup (mock or hardware). -/
structure Env where
  mqttPfx : String
  mqttEnabled : Bool
  fsOk : Bool
  mkGpio : Nat → Dir → Gpio

/-- Observable state of the second variant: current config and its file,
in-memory saved state and its file, the runtime pin map, and the event logs
of delta broadcasts and MQTT publishes (topic, payload, retain flag). -/
structure Sys where
  config : Config
  configFile : FileContent
  savedState : List (String × Nat)
  stateFile : FileContent
  pins : List (Nat × Entry)
  deltas : List (Nat × Nat)
  publishes : List (String × String × Bool)

/-- Serialise the state mapping the way JSON.stringify serialises the
savedState object (string keys, numeric values). -/
def encodeState (st : List (String × Nat)) : Json :=
  .obj (st.map (fun kv => (kv.1, Json.num (Int.ofNat kv.2))))

/-- Serialise one pin entry of the configuration document. -/
def encodePin (p : PinSpec) : Json :=
  .obj [("number", .num (Int.ofNat p.number)), ("label", .str p.label),
        ("direction", .str p.direction)]

/-- Serialise the configuration document. -/
def encodeConfig (c : Config) : Json :=
  .obj [("pins", .arr (c.pins.map encodePin))]

/-- Read one entry of a state document back (document shape of the
specification: stringified pin number mapped to a number). -/
def decodeStateEntry : String × Json → Option (String × Nat)
  | (k, .num (Int.ofNat w)) => some (k, w)
  | _ => none

/-- Read a state document back into a mapping; none when the tree does not
have the documented shape. -/
def decodeState : Json → Option (List (String × Nat))
  | .obj fields => omapM decodeStateEntry fields
  | _ => none

/-- Read one pin entry of a configuration document back. -/
def decodePin (j : Json) : Option PinSpec :=
  match j.getField "number", j.getField "label", j.getField "direction" with
  | some (.num (Int.ofNat w)), some (.str l), some (.str d) =>
    some { number := w, label := l, direction := d }
  | _, _, _ => none

/-- Read a configuration document back; none when the tree does not have
the documented shape. -/
def decodeConfig (j : Json) : Option Config :=
  match j.getField "pins" with
  | some (.arr xs) => (omapM decodePin xs).map Config.mk
  | _ => none

/-- Fallback configuration document of the second variant: empty
topology. -/
def configFallback : Json := .obj [("pins", .arr [])]

/-- Second variant, configuration load: readJsonSafe with the empty
topology as fallback. -/
def loadConfigDoc (fc : FileContent) : Json := readJsonSafe fc configFallback

/-- Second variant, state load: readJsonSafe with the empty mapping as
fallback. -/
def loadStateDoc (fc : FileContent) : Json := readJsonSafe fc (.obj [])

/-- First variant, configuration load: JSON.parse of the raw file with no
try/catch, so a failure propagates out of startup. -/
def loadConfigV1 (fc : FileContent) : Except ReadErr Json := readAndParse fc

/-- First variant, state load: try/catch around parse, empty mapping on
failure. -/
def loadStateV1 (fc : FileContent) : Json :=
  match readAndParse fc with
  | .ok doc => doc
  | .error _ => .obj []

/-- Direction normalisation at rebuild: lowercase equal to in means in,
anything else (including the empty string used for a missing field) means
out. -/
def normDir (s : String) : Dir :=
  if jsToLower s = "in" then .input else .output

/-- Label default at rebuild: an empty (falsy) label becomes a generated
name. -/
def normLabel (label : String) (number : Nat) : String :=
  if label = "" then "GPIO " ++ toString number else label

/-- Value coercion of the setPin handler: any non-zero number becomes 1,
zero (and the non-numeric inputs that coerce to NaN) becomes 0. -/
def coerce (v : Int) : Nat := if v = 0 then 0 else 1

/-- Initial level written at rebuild: the saved state value for the number
(default 0), coerced to exactly 0 or 1. -/
def initialValue (savedState : List (String × Nat)) (number : Nat) : Nat :=
  if (alookup (toString number) savedState).getD 0 = 0 then 0 else 1

/-- Retained state publish: appends one retained message on the state topic
when an MQTT client exists, payload ON for a non-zero value and OFF
otherwise. -/
def publishMqtt (env : Env) (number : Nat) (value : Nat)
    (pubs : List (String × String × Bool)) : List (String × String × Bool) :=
  if env.mqttEnabled then
    pubs ++ [(env.mqttPfx ++ "/" ++ toString number ++ "/state",
              if value = 0 then "OFF" else "ON", true)]
  else pubs

/-- One iteration of the rebuild loop: normalise the entry, construct an
adapter, store it in the map (a duplicate number overwrites the earlier
entry), and for an out pin write the initial level and publish it
retained.  The adapter object is stored before the initial write in the
source; the map entry aliases the object, so the entry is inserted here
with the written level. -/
def setupStep (env : Env) (savedState : List (String × Nat))
    (acc : List (Nat × Entry) × List (String × String × Bool))
    (p : PinSpec) : List (Nat × Entry) × List (String × String × Bool) :=
  let number := p.number
  let d := normDir p.direction
  let label := normLabel p.label number
  let g := env.mkGpio number d
  if d = Dir.output then
    let initial := initialValue savedState number
    let g2 := g.writeSync initial
    (ainsert number ⟨g2, ⟨number, d, label⟩⟩ acc.1,
     publishMqtt env number initial acc.2)
  else
    (ainsert number ⟨g, ⟨number, d, label⟩⟩ acc.1, acc.2)

/-- Registry rebuild of the second variant: clear the map and process every
configured pin in document order, returning the new map and the list of
initial retained publishes.  Input-pin watch callbacks and MQTT
subscriptions have no effect on the state observed here. -/
def setupPins (env : Env) (cfg : Config) (savedState : List (String × Nat)) :
    List (Nat × Entry) × List (String × String × Bool) :=
  cfg.pins.foldl (setupStep env savedState) ([], [])

/-- Snapshot value of one pin: the adapter read, or on a throwing read the
saved state value for that number, defaulting to 0. -/
def pinReadFallback (saved : List (String × Nat)) (k : Nat) (e : Entry) :
    Nat :=
  match e.gpio.readSyncRes with
  | some w => w
  | none => (alookup (toString k) saved).getD 0

/-- Snapshot of all registered pins (second variant getCurrentState). -/
def getCurrentState (s : Sys) : List (Nat × Nat) :=
  s.pins.map (fun p => (p.1, pinReadFallback s.savedState p.1 p.2))

/-- Inbound setPin handler of the second variant: ignore unknown and input
pins; otherwise coerce the value, write it through the adapter (errors
swallowed), update and persist the saved state (a failed file write is
swallowed, leaving the file as it was), broadcast exactly one delta to all
sessions, and publish the value retained. -/
def onSetPin (env : Env) (number : Nat) (value : Int) (s : Sys) : Sys :=
  match alookup number s.pins with
  | none => s
  | some e =>
    if e.meta.direction ≠ Dir.output then s
    else
      let v := coerce value
      let g2 := e.gpio.writeSync v
      let saved2 := ainsert (toString e.meta.number) v s.savedState
      { s with
        pins := ainsert number ⟨g2, e.meta⟩ s.pins,
        savedState := saved2,
        stateFile :=
          if env.fsOk then FileContent.json (encodeState saved2)
          else s.stateFile,
        deltas := s.deltas ++ [(e.meta.number, v)],
        publishes := publishMqtt env e.meta.number v s.publishes }

/-- Payload mapping of the second variant for inbound set messages: trim,
uppercase, then ON or 1 means 1 and anything else means 0. -/
def payloadToValue (payload : String) : Nat :=
  if jsToUpper (jsTrim payload) = "ON" ∨ jsToUpper (jsTrim payload) = "1"
  then 1 else 0

/-- Topic pattern of the inbound MQTT control path: the topic must be the
configured root, a slash, one or more digits, and the literal set suffix;
the digits give the pin number. -/
def parseSetTopic (pfx topic : String) : Option Nat :=
  match stripHead (pfx.data ++ ['/']) topic.data with
  | none => none
  | some rest =>
    match stripHead ("/set".data.reverse) rest.reverse with
    | none => none
    | some midRev =>
      let mid := midRev.reverse
      if mid ≠ [] ∧ mid.all Char.isDigit then some (digitsToNat mid)
      else none

/-- Inbound MQTT message handler of the second variant: on a matching set
topic for a registered out pin, map the payload, write through the adapter
(errors swallowed), update and persist the saved state, broadcast one
delta, and publish the value back retained; anything else is ignored. -/
def onMqttMessage (env : Env) (topic payload : String) (s : Sys) : Sys :=
  match parseSetTopic env.mqttPfx topic with
  | none => s
  | some number =>
    match alookup number s.pins with
    | none => s
    | some e =>
      if e.meta.direction ≠ Dir.output then s
      else
        let v := payloadToValue payload
        let g2 := e.gpio.writeSync v
        let saved2 := ainsert (toString number) v s.savedState
        { s with
          pins := ainsert number ⟨g2, e.meta⟩ s.pins,
          savedState := saved2,
          stateFile :=
            if env.fsOk then FileContent.json (encodeState saved2)
            else s.stateFile,
          deltas := s.deltas ++ [(number, v)],
          publishes := publishMqtt env number v s.publishes }

/-- Responses of the config POST endpoint. -/
inductive ConfigResp where
  | badRequest (msg : String)
  | serverError (msg : String)
  | accepted (cfg : Config)

/-- Direction sanitisation of the config POST: stringified direction,
defaulted to out, lowercased, compared with in.  A non-string direction
never stringifies to in here (numbers details are outside the documented
shapes), so it normalises to out. -/
def sanitizeDir (j : Option Json) : String :=
  match j with
  | some (.str s) => if jsToLower s = "in" then "in" else "out"
  | _ => "out"

/-- Entry sanitisation of the config POST.  Number and label of documents
outside the documented shapes (missing or non-numeric number, non-string
label) are modelled by the defaults 0 and the empty string. -/
def sanitizePin (p : Json) : PinSpec :=
  { number :=
      match p.getField "number" with
      | some (.num w) => w.toNat
      | _ => 0,
    label :=
      match p.getField "label" with
      | some (.str s) => s
      | _ => "",
    direction := sanitizeDir (p.getField "direction") }

/-- Config POST of the second variant: a body whose pins member is missing
or not an array is rejected with 400 before any mutation; otherwise the
entries are sanitised, the in-memory config is replaced, the file is
written (a failing write answers 500 with the in-memory config already
replaced and no rebuild), and on success the registry is rebuilt. -/
def postConfig (env : Env) (body : Json) (s : Sys) : ConfigResp × Sys :=
  match body.getField "pins" with
  | some (.arr xs) =>
    let cfg2 : Config := ⟨xs.map sanitizePin⟩
    if env.fsOk then
      let s2 := { s with config := cfg2,
                         configFile := FileContent.json (encodeConfig cfg2) }
      let setup := setupPins env cfg2 s2.savedState
      (.accepted cfg2,
       { s2 with pins := setup.1, publishes := s2.publishes ++ setup.2 })
    else
      (.serverError "Failed to write gpio-config.json",
       { s with config := cfg2 })
  | _ => (.badRequest "Invalid config: expected \x7b pins: [...] \x7d", s)

/-- Runtime pin record of the first variant (legacy server.js): adapter,
label and direction, keyed by the stringified pin number. -/
structure V1Entry where
  gpio : Gpio
  label : String
  direction : Dir
  deriving DecidableEq

/-- Observable state of the first variant: saved state and its file, the
pin object, a count of full-status broadcasts, and the MQTT publish log
(topic, payload; the first variant does not set the retain flag). -/
structure V1Sys where
  savedState : List (String × Nat)
  stateFile : FileContent
  pins : List (String × V1Entry)
  statusEmits : Nat
  publishes : List (String × String)

/-- First variant saveState: assign the key and rewrite the whole state
file. -/
def saveStateV1 (pin : String) (value : Nat) (s : V1Sys) : V1Sys :=
  let saved2 := ainsert pin value s.savedState
  { s with savedState := saved2,
           stateFile := FileContent.json (encodeState saved2) }

/-- First variant toggle handler: for a registered out pin, xor the current
adapter level with 1, write it, persist it, broadcast a full status
snapshot, and publish the new level.  The read is modelled as returning the
stored level (the first variant performs it outside any try/catch). -/
def onToggle (pin : String) (s : V1Sys) : V1Sys :=
  match alookup pin s.pins with
  | none => s
  | some e =>
    if e.direction ≠ Dir.output then s
    else
      let newValue := e.gpio.value ^^^ 1
      let g2 := e.gpio.writeSync newValue
      let s2 := saveStateV1 pin newValue
        { s with pins := ainsert pin { e with gpio := g2 } s.pins }
      { s2 with
        statusEmits := s2.statusEmits + 1,
        publishes := s2.publishes ++
          [("home/gpio/" ++ pin ++ "/state",
            if newValue = 0 then "OFF" else "ON")] }

/-- First variant inbound MQTT set handler, after the topic match captured
the pin digits: only a payload exactly equal to ON maps to 1, anything else
maps to 0; unknown and input pins are ignored. -/
def onMqttSetV1 (pin : String) (payload : String) (s : V1Sys) : V1Sys :=
  let value : Nat := if payload = "ON" then 1 else 0
  match alookup pin s.pins with
  | none => s
  | some e =>
    if e.direction ≠ Dir.output then s
    else
      let g2 := e.gpio.writeSync value
      let s2 := saveStateV1 pin value
        { s with pins := ainsert pin { e with gpio := g2 } s.pins }
      { s2 with
        statusEmits := s2.statusEmits + 1,
        publishes := s2.publishes ++
          [("home/gpio/" ++ pin ++ "/state",
            if value = 0 then "OFF" else "ON")] }

/-- Claim C3 reading of the payload rule, taken word for word: a payload
case-insensitively equal to ON, or equal to 1, maps to 1; any other payload
maps to 0 (no trimming). -/
def claimPayloadValue (payload : String) : Nat :=
  if jsToUpper payload = "ON" ∨ payload = "1" then 1 else 0

/-- Concrete environment: default topic root, MQTT configured, file system
healthy, mock adapters. -/
def env0 : Env :=
  { mqttPfx := "home/gpio", mqttEnabled := true, fsOk := true,
    mkGpio := mockGpio }

/-- Concrete registered out pin 17. -/
def entry17 : Entry :=
  { gpio := { number := 17, dir := Dir.output, value := 0,
              failWrite := false, failRead := false },
    meta := { number := 17, direction := Dir.output, label := "LED" } }

/-- Concrete configuration with the single out pin 17. -/
def cfg17 : Config := ⟨[{ number := 17, label := "LED", direction := "out" }]⟩

/-- Concrete second-variant state: pin 17 registered out at level 0, empty
saved state. -/
def s0 : Sys :=
  { config := cfg17,
    configFile := FileContent.json (encodeConfig cfg17),
    savedState := [],
    stateFile := FileContent.json (Json.obj []),
    pins := [(17, entry17)],
    deltas := [],
    publishes := [] }

/-- Concrete registered out pin 9 whose adapter read throws while it holds
level 3. -/
def entry9 : Entry :=
  { gpio := { number := 9, dir := Dir.output, value := 3,
              failWrite := false, failRead := true },
    meta := { number := 9, direction := Dir.output, label := "Valve" } }

/-- Concrete second-variant state for the snapshot fallback: the only pin
has a throwing read and the saved state remembers 1 for it. -/
def s9 : Sys :=
  { config := ⟨[]⟩,
    configFile := FileContent.json configFallback,
    savedState := [("9", 1)],
    stateFile := FileContent.json (encodeState [("9", 1)]),
    pins := [(9, entry9)],
    deltas := [],
    publishes := [] }

/-- Concrete first-variant state: out pin 17 at level 0 and an empty saved
state document (a fresh boot before any toggle). -/
def v1ex : V1Sys :=
  { savedState := [],
    stateFile := FileContent.json (Json.obj []),
    pins := [("17", { gpio := { number := 17, dir := Dir.output, value := 0,
                                failWrite := false, failRead := false },
                      label := "LED", direction := Dir.output })],
    statusEmits := 0,
    publishes := [] }

/-- Concrete first-variant state whose saved state already matches the
adapter level 1 of out pin 17. -/
def v1c : V1Sys :=
  { savedState := [("17", 1)],
    stateFile := FileContent.json (encodeState [("17", 1)]),
    pins := [("17", { gpio := { number := 17, dir := Dir.output, value := 1,
                                failWrite := false, failRead := false },
                      label := "LED", direction := Dir.output })],
    statusEmits := 0,
    publishes := [] }

theorem alookup_ainsert_self {α β : Type} [DecidableEq α] (key : α) (val : β)
    (m : List (α × β)) : alookup key (ainsert key val m) = some val := by
  induction m with
  | nil => simp [ainsert, alookup]
  | cons kv rest ih =>
    by_cases h : kv.1 = key
    · simp [ainsert, alookup, h]
    · simpa [ainsert, alookup, h] using ih

theorem alookup_ainsert_ne {α β : Type} [DecidableEq α] (key key' : α)
    (val : β) (m : List (α × β)) (h : key ≠ key') :
    alookup key' (ainsert key val m) = alookup key' m := by
  induction m with
  | nil => simp [ainsert, alookup, h]
  | cons kv rest ih =>
    by_cases hk : kv.1 = key
    · simp [ainsert, alookup, hk, h]
    · simp [ainsert, alookup, hk, ih]

theorem ainsert_ainsert {α β : Type} [DecidableEq α] (key : α) (v w : β)
    (m : List (α × β)) : ainsert key w (ainsert key v m) = ainsert key w m := by
  induction m with
  | nil => simp [ainsert]
  | cons kv rest ih =>
    by_cases hk : kv.1 = key
    · simp [ainsert, hk]
    · simp [ainsert, hk, ih]

theorem alookup_map_snd {α β γ : Type} [DecidableEq α] (g : α → β → γ)
    (m : List (α × β)) (key : α) :
    alookup key (m.map (fun p => (p.1, g p.1 p.2))) =
      (alookup key m).map (g key) := by
  induction m with
  | nil => rfl
  | cons kv rest ih =>
    by_cases hk : kv.1 = key
    · subst hk; simp [alookup]
    · simp [alookup, hk, ih]

theorem omapM_map_eq_some {α β : Type} (f : β → Option α) (g : α → β)
    (h : ∀ a, f (g a) = some a) :
    ∀ l : List α, omapM f (l.map g) = some l := by
  intro l
  induction l with
  | nil => rfl
  | cons a l ih => simp [omapM, h a, ih]

theorem writeSync_failRead (g : Gpio) (v : Nat) :
    (g.writeSync v).failRead = g.failRead := by
  unfold Gpio.writeSync
  split <;> rfl

theorem writeSync_failWrite (g : Gpio) (v : Nat) :
    (g.writeSync v).failWrite = g.failWrite := by
  unfold Gpio.writeSync
  split <;> rfl

theorem writeSync_value_of_ok (g : Gpio) (v : Nat)
    (h : g.failWrite = false) : (g.writeSync v).value = v := by
  simp [Gpio.writeSync, h]

theorem writeSync_writeSync (g : Gpio) (v : Nat) :
    (g.writeSync v).writeSync v = g.writeSync v := by
  unfold Gpio.writeSync
  by_cases h : g.failWrite <;> simp [h]

theorem readSyncRes_of_ok (g : Gpio) (h : g.failRead = false) :
    g.readSyncRes = some g.value := by
  simp [Gpio.readSyncRes, h]

theorem onSetPin_eq (env : Env) (s : Sys) (number : Nat) (value : Int)
    (e : Entry) (hlook : alookup number s.pins = some e)
    (hdir : e.meta.direction = Dir.output) :
    onSetPin env number value s =
      { s with
        pins := ainsert number ⟨e.gpio.writeSync (coerce value), e.meta⟩
          s.pins,
        savedState := ainsert (toString e.meta.number) (coerce value)
          s.savedState,
        stateFile :=
          if env.fsOk then
            FileContent.json (encodeState
              (ainsert (toString e.meta.number) (coerce value) s.savedState))
          else s.stateFile,
        deltas := s.deltas ++ [(e.meta.number, coerce value)],
        publishes := publishMqtt env e.meta.number (coerce value)
          s.publishes } := by
  unfold onSetPin
  rw [hlook]
  simp [hdir]

theorem onMqttMessage_eq (env : Env) (s : Sys) (topic payload : String)
    (number : Nat) (e : Entry)
    (htopic : parseSetTopic env.mqttPfx topic = some number)
    (hlook : alookup number s.pins = some e)
    (hdir : e.meta.direction = Dir.output) :
    onMqttMessage env topic payload s =
      { s with
        pins := ainsert number
          ⟨e.gpio.writeSync (payloadToValue payload), e.meta⟩ s.pins,
        savedState := ainsert (toString number) (payloadToValue payload)
          s.savedState,
        stateFile :=
          if env.fsOk then
            FileContent.json (encodeState
              (ainsert (toString number) (payloadToValue payload)
                s.savedState))
          else s.stateFile,
        deltas := s.deltas ++ [(number, payloadToValue payload)],
        publishes := publishMqtt env number (payloadToValue payload)
          s.publishes } := by
  simp [onMqttMessage, htopic, hlook, hdir]

/-- C3 counterexample: the second variant trims the payload before
matching, so the payload consisting of a space followed by ON is mapped to
1 by the code although it is neither case-insensitively equal to ON nor
equal to 1, while the claimed rule maps it to 0. -/
theorem payload_space_on_refutes_claim :
    payloadToValue " ON" = 1 ∧ claimPayloadValue " ON" = 0 ∧
    jsToUpper " ON" ≠ "ON" ∧ " ON" ≠ "1" := by
  refine ⟨by decide, by decide, by decide, by decide⟩

/-- C3 (amended): the payload of an inbound set message, after trimming
surrounding whitespace and uppercasing, maps to 1 exactly when the result
is ON or 1, and to 0 otherwise (so OFF and the empty string map to 0); the
inbound MQTT handler stores exactly that mapped value for the addressed out
pin. -/
theorem payload_mapping_trimmed :
    (∀ p : String,
      (payloadToValue p = 1 ↔
        (jsToUpper (jsTrim p) = "ON" ∨ jsToUpper (jsTrim p) = "1")) ∧
      (payloadToValue p = 0 ∨ payloadToValue p = 1)) ∧
    payloadToValue "ON" = 1 ∧ payloadToValue "on" = 1 ∧
    payloadToValue "1" = 1 ∧ payloadToValue " oN " = 1 ∧
    payloadToValue "OFF" = 0 ∧ payloadToValue "off" = 0 ∧
    payloadToValue "" = 0 ∧
    (∀ (env : Env) (s : Sys) (topic payload : String) (n : Nat) (e : Entry),
      parseSetTopic env.mqttPfx topic = some n →
      alookup n s.pins = some e →
      e.meta.direction = Dir.output →
      alookup (toString n) (onMqttMessage env topic payload s).savedState =
        some (payloadToValue payload)) := by
  refine ⟨?_, by decide, by decide, by decide, by decide, by decide,
    by decide, by decide, ?_⟩
  · intro p
    constructor
    · unfold payloadToValue
      split <;> simp_all
    · unfold payloadToValue
      split <;> simp
  · intro env s topic payload n e htopic hlook hdir
    rw [onMqttMessage_eq env s topic payload n e htopic hlook hdir]
    exact alookup_ainsert_self _ _ _

/-- C3 witness: the concrete payload with mixed case and surrounding blanks
is stored as 1 for pin 17 by the inbound handler. -/
theorem payload_mapping_trimmed_witness :
    alookup "17" (onMqttMessage env0 "home/gpio/17/set" " oN " s0).savedState
      = some 1 :=
  payload_mapping_trimmed.2.2.2.2.2.2.2.2 env0 s0 "home/gpio/17/set" " oN "
    17 entry17 (by decide) rfl rfl

/-- C4 counterexample: in the first variant the configuration document is
parsed with no try/catch, so a missing file propagates the failure out of
startup instead of yielding an empty topology. -/
theorem v1_config_load_propagates :
    loadConfigV1 FileContent.missing = Except.error ReadErr.fileMissing :=
  rfl

/-- C4 (amended): in the second variant a missing or unparsable file makes
the configuration load return the empty topology (a document with no pins)
and the state load return the empty mapping, with no error propagating; the
first variant treats the state document the same way, but its configuration
load propagates the failure. -/
theorem load_failure_fallbacks (fc : FileContent)
    (h : fc = FileContent.missing ∨ fc = FileContent.invalid) :
    loadConfigDoc fc = configFallback ∧
    decodeConfig (loadConfigDoc fc) = some { pins := [] } ∧
    loadStateDoc fc = Json.obj [] ∧
    decodeState (loadStateDoc fc) = some [] ∧
    loadStateV1 fc = Json.obj [] ∧
    (∃ err, loadConfigV1 fc = Except.error err) := by
  rcases h with h | h <;> subst h <;>
    exact ⟨rfl, rfl, rfl, rfl, rfl, ⟨_, rfl⟩⟩

/-- C4 witness: the fallbacks at the concrete missing-file content. -/
theorem load_failure_fallbacks_witness :
    decodeConfig (loadConfigDoc FileContent.missing) = some { pins := [] } ∧
    decodeState (loadStateDoc FileContent.missing) = some [] :=
  ⟨(load_failure_fallbacks FileContent.missing (Or.inl rfl)).2.1,
   (load_failure_fallbacks FileContent.missing (Or.inl rfl)).2.2.2.1⟩

/-- C1: an inbound set request for a registered out pin, through the UI
setPin path or the MQTT set path, leaves the adapter reading the coerced
value, persists a state document mapping the pin to the coerced value, and
broadcasts exactly one delta carrying the pin number and the coerced
value. -/
theorem set_request_applies_output
    (env : Env) (s : Sys) (n : Nat) (e : Entry) (v : Int)
    (topic payload : String)
    (hfs : env.fsOk = true)
    (hlook : alookup n s.pins = some e)
    (hdir : e.meta.direction = Dir.output)
    (hnum : e.meta.number = n)
    (hw : e.gpio.failWrite = false)
    (hr : e.gpio.failRead = false)
    (htopic : parseSetTopic env.mqttPfx topic = some n) :
    (∃ e1, alookup n (onSetPin env n v s).pins = some e1 ∧
      e1.gpio.readSyncRes = some (coerce v)) ∧
    alookup (toString n) (onSetPin env n v s).savedState = some (coerce v) ∧
    (onSetPin env n v s).stateFile =
      FileContent.json (encodeState (onSetPin env n v s).savedState) ∧
    (onSetPin env n v s).deltas = s.deltas ++ [(n, coerce v)] ∧
    (∃ e2, alookup n (onMqttMessage env topic payload s).pins = some e2 ∧
      e2.gpio.readSyncRes = some (payloadToValue payload)) ∧
    alookup (toString n) (onMqttMessage env topic payload s).savedState =
      some (payloadToValue payload) ∧
    (onMqttMessage env topic payload s).stateFile =
      FileContent.json
        (encodeState (onMqttMessage env topic payload s).savedState) ∧
    (onMqttMessage env topic payload s).deltas =
      s.deltas ++ [(n, payloadToValue payload)] := by
  subst hnum
  have hgr : ∀ w : Nat, (e.gpio.writeSync w).readSyncRes = some w := by
    intro w
    have hfr : (e.gpio.writeSync w).failRead = false := by
      rw [writeSync_failRead]; exact hr
    rw [readSyncRes_of_ok _ hfr, writeSync_value_of_ok _ _ hw]
  rw [onSetPin_eq env s e.meta.number v e hlook hdir,
    onMqttMessage_eq env s topic payload e.meta.number e htopic hlook hdir]
  refine ⟨⟨_, alookup_ainsert_self _ _ _, hgr (coerce v)⟩,
    alookup_ainsert_self _ _ _, ?_, rfl,
    ⟨_, alookup_ainsert_self _ _ _, hgr (payloadToValue payload)⟩,
    alookup_ainsert_self _ _ _, ?_, rfl⟩
  · simp [hfs]
  · simp [hfs]

/-- C1 witness: pin 17 of the concrete state, set to 5 over the UI path
and to ON over the MQTT path. -/
theorem set_request_applies_output_witness :
    alookup "17" (onSetPin env0 17 5 s0).savedState = some 1 ∧
    (onSetPin env0 17 5 s0).deltas = [(17, 1)] ∧
    alookup "17"
      (onMqttMessage env0 "home/gpio/17/set" "ON" s0).savedState = some 1 ∧
    (onMqttMessage env0 "home/gpio/17/set" "ON" s0).deltas = [(17, 1)] := by
  have h := set_request_applies_output env0 s0 17 entry17 5
    "home/gpio/17/set" "ON" rfl rfl rfl rfl rfl rfl (by decide)
  exact ⟨h.2.1, h.2.2.2.1, h.2.2.2.2.2.1, h.2.2.2.2.2.2.2⟩

/-- C2: a set request for a pin that is unregistered, or registered as an
input, is a complete no-op in both variants and on both the UI and the MQTT
paths: the returned state is the argument state, so no adapter write, no
state change, no file write, no broadcast and no publish happen, and no
error is reported. -/
theorem unknown_or_input_request_noop :
    (∀ (env : Env) (s : Sys) (n : Nat) (v : Int),
      (alookup n s.pins = none ∨
        ∃ e, alookup n s.pins = some e ∧ e.meta.direction = Dir.input) →
      onSetPin env n v s = s) ∧
    (∀ (env : Env) (s : Sys) (topic payload : String) (n : Nat),
      parseSetTopic env.mqttPfx topic = some n →
      (alookup n s.pins = none ∨
        ∃ e, alookup n s.pins = some e ∧ e.meta.direction = Dir.input) →
      onMqttMessage env topic payload s = s) ∧
    (∀ (s : V1Sys) (pin : String),
      (alookup pin s.pins = none ∨
        ∃ e, alookup pin s.pins = some e ∧ e.direction = Dir.input) →
      onToggle pin s = s) ∧
    (∀ (s : V1Sys) (pin payload : String),
      (alookup pin s.pins = none ∨
        ∃ e, alookup pin s.pins = some e ∧ e.direction = Dir.input) →
      onMqttSetV1 pin payload s = s) := by
  refine ⟨?_, ?_, ?_, ?_⟩
  · intro env s n v h
    rcases h with h | ⟨e, he, hd⟩
    · simp [onSetPin, h]
    · simp [onSetPin, he, hd]
  · intro env s topic payload n htopic h
    rcases h with h | ⟨e, he, hd⟩
    · simp [onMqttMessage, htopic, h]
    · simp [onMqttMessage, htopic, he, hd]
  · intro s pin h
    rcases h with h | ⟨e, he, hd⟩
    · simp [onToggle, h]
    · simp [onToggle, he, hd]
  · intro s pin payload h
    rcases h with h | ⟨e, he, hd⟩
    · simp [onMqttSetV1, h]
    · simp [onMqttSetV1, he, hd]

/-- C2 witness: requests for the unregistered pin 99 on all four paths of
the concrete states. -/
theorem unknown_or_input_request_noop_witness :
    onSetPin env0 99 1 s0 = s0 ∧
    onMqttMessage env0 "home/gpio/99/set" "ON" s0 = s0 ∧
    onToggle "99" v1ex = v1ex ∧
    onMqttSetV1 "99" "OFF" v1ex = v1ex :=
  ⟨unknown_or_input_request_noop.1 env0 s0 99 1 (Or.inl rfl),
   unknown_or_input_request_noop.2.1 env0 s0 "home/gpio/99/set" "ON" 99
     (by decide) (Or.inl rfl),
   unknown_or_input_request_noop.2.2.1 v1ex "99" (Or.inl rfl),
   unknown_or_input_request_noop.2.2.2 v1ex "99" "OFF" (Or.inl rfl)⟩

/-- C7: applying the same set request twice for a registered out pin leaves
the pin map, the saved state and the state file exactly as after the first
application, and each of the two applications broadcasts one delta. -/
theorem apply_output_idempotent
    (env : Env) (s : Sys) (n : Nat) (v : Int) (e : Entry)
    (hlook : alookup n s.pins = some e)
    (hdir : e.meta.direction = Dir.output) :
    (onSetPin env n v (onSetPin env n v s)).pins =
      (onSetPin env n v s).pins ∧
    (onSetPin env n v (onSetPin env n v s)).savedState =
      (onSetPin env n v s).savedState ∧
    (onSetPin env n v (onSetPin env n v s)).stateFile =
      (onSetPin env n v s).stateFile ∧
    (onSetPin env n v s).deltas = s.deltas ++ [(e.meta.number, coerce v)] ∧
    (onSetPin env n v (onSetPin env n v s)).deltas =
      s.deltas ++ [(e.meta.number, coerce v), (e.meta.number, coerce v)] := by
  have h1 := onSetPin_eq env s n v e hlook hdir
  have hlook2 : alookup n (onSetPin env n v s).pins =
      some ⟨e.gpio.writeSync (coerce v), e.meta⟩ := by
    rw [h1]; exact alookup_ainsert_self _ _ _
  have h2 := onSetPin_eq env (onSetPin env n v s) n v
    ⟨e.gpio.writeSync (coerce v), e.meta⟩ hlook2 hdir
  rw [h2, h1]
  refine ⟨?_, ?_, ?_, rfl, ?_⟩
  · show ainsert n
      ⟨(e.gpio.writeSync (coerce v)).writeSync (coerce v), e.meta⟩
      (ainsert n ⟨e.gpio.writeSync (coerce v), e.meta⟩ s.pins) = _
    rw [writeSync_writeSync]
    exact ainsert_ainsert _ _ _ _
  · exact ainsert_ainsert _ _ _ _
  · show (if env.fsOk then _ else _) = _
    by_cases hf : env.fsOk <;> simp [hf, ainsert_ainsert]
  · simp

/-- C7 witness: setting pin 17 to 1 twice from the concrete state. -/
theorem apply_output_idempotent_witness :
    (onSetPin env0 17 1 (onSetPin env0 17 1 s0)).savedState =
      (onSetPin env0 17 1 s0).savedState ∧
    (onSetPin env0 17 1 (onSetPin env0 17 1 s0)).deltas =
      [(17, 1), (17, 1)] := by
  have h := apply_output_idempotent env0 s0 17 1 entry17 rfl rfl
  exact ⟨h.2.1, h.2.2.2.2⟩

/-- C6: a config POST whose body has no pins member, or whose pins member
is not an array, is answered with the 400 error and changes nothing: the
returned state is the argument state, so the in-memory config, the pin map
and both files are untouched. -/
theorem invalid_config_post_rejected
    (env : Env) (body : Json) (s : Sys)
    (h : ∀ xs : List Json, body.getField "pins" ≠ some (Json.arr xs)) :
    postConfig env body s =
      (ConfigResp.badRequest "Invalid config: expected \x7b pins: [...] \x7d",
       s) := by
  rcases hb : body.getField "pins" with _ | j
  · simp [postConfig, hb]
  · cases j with
    | arr xs => exact absurd hb (h xs)
    | null => simp [postConfig, hb]
    | bool b => simp [postConfig, hb]
    | num w => simp [postConfig, hb]
    | str t => simp [postConfig, hb]
    | obj fields => simp [postConfig, hb]

/-- C6 witness: a body whose pins member is the number 3. -/
theorem invalid_config_post_rejected_witness :
    postConfig env0 (Json.obj [("pins", Json.num 3)]) s0 =
      (ConfigResp.badRequest "Invalid config: expected \x7b pins: [...] \x7d",
       s0) :=
  invalid_config_post_rejected env0 (Json.obj [("pins", Json.num 3)]) s0
    (by
      intro xs hx
      rw [show (Json.obj [("pins", Json.num 3)]).getField "pins" =
        some (Json.num 3) from rfl] at hx
      injection hx with hx2
      exact Json.noConfusion hx2)

theorem decodePin_encodePin (p : PinSpec) :
    decodePin (encodePin p) = some p := rfl

theorem decodeStateEntry_encode (kv : String × Nat) :
    decodeStateEntry (kv.1, Json.num (Int.ofNat kv.2)) = some kv := rfl

/-- C8: a configuration document written by the save path and then read by
the load path comes back equal to the document written, and the same holds
for a state mapping. -/
theorem save_load_round_trip :
    ∀ (c : Config) (st : List (String × Nat)),
      decodeConfig (loadConfigDoc (FileContent.json (encodeConfig c))) =
        some c ∧
      decodeState (loadStateDoc (FileContent.json (encodeState st))) =
        some st := by
  intro c st
  constructor
  · have h1 : decodeConfig (loadConfigDoc (FileContent.json (encodeConfig c)))
        = (omapM decodePin (c.pins.map encodePin)).map Config.mk := rfl
    rw [h1, omapM_map_eq_some decodePin encodePin decodePin_encodePin c.pins]
    rfl
  · have h1 : decodeState (loadStateDoc (FileContent.json (encodeState st)))
        = omapM decodeStateEntry
            (st.map (fun kv => (kv.1, Json.num (Int.ofNat kv.2)))) := rfl
    rw [h1]
    exact omapM_map_eq_some decodeStateEntry
      (fun kv => (kv.1, Json.num (Int.ofNat kv.2))) decodeStateEntry_encode st

/-- C9: the snapshot is total over the registered pins: every registered
pin gets a numeric value, the adapter reading when the read succeeds, and
the saved state value for the number (default 0) when the read throws. -/
theorem snapshot_total_with_fallback (s : Sys) (n : Nat) (e : Entry)
    (hlook : alookup n s.pins = some e) :
    ∃ w, alookup n (getCurrentState s) = some w ∧
      (e.gpio.failRead = false → w = e.gpio.value) ∧
      (e.gpio.failRead = true →
        w = (alookup (toString n) s.savedState).getD 0) := by
  refine ⟨pinReadFallback s.savedState n e, ?_, ?_, ?_⟩
  · unfold getCurrentState
    rw [alookup_map_snd (pinReadFallback s.savedState) s.pins n, hlook]
    rfl
  · intro hr
    simp [pinReadFallback, Gpio.readSyncRes, hr]
  · intro hr
    simp [pinReadFallback, Gpio.readSyncRes, hr]

/-- C9 witness: the concrete state whose only pin throws on read while the
saved state remembers 1 for it. -/
theorem snapshot_total_with_fallback_witness :
    alookup 9 (getCurrentState s9) = some 1 := by
  obtain ⟨w, hw, _, hf⟩ := snapshot_total_with_fallback s9 9 entry9 rfl
  have hw1 : w = 1 := (hf rfl).trans (by decide)
  rw [hw1] at hw
  exact hw

theorem setupStep_out (env : Env) (st : List (String × Nat))
    (acc : List (Nat × Entry) × List (String × String × Bool)) (p : PinSpec)
    (hd : normDir p.direction = Dir.output) :
    setupStep env st acc p =
      (ainsert p.number
        ⟨(env.mkGpio p.number Dir.output).writeSync (initialValue st p.number),
         ⟨p.number, Dir.output, normLabel p.label p.number⟩⟩ acc.1,
       publishMqtt env p.number (initialValue st p.number) acc.2) := by
  simp [setupStep, hd]

theorem setupStep_in (env : Env) (st : List (String × Nat))
    (acc : List (Nat × Entry) × List (String × String × Bool)) (p : PinSpec)
    (hd : normDir p.direction = Dir.input) :
    setupStep env st acc p =
      (ainsert p.number
        ⟨env.mkGpio p.number Dir.input,
         ⟨p.number, Dir.input, normLabel p.label p.number⟩⟩ acc.1,
       acc.2) := by
  simp [setupStep, hd]

theorem setupStep_preserves (env : Env) (st : List (String × Nat))
    (hmq : env.mqttEnabled = true)
    (hmk : ∀ (num : Nat) (d : Dir), (env.mkGpio num d).failWrite = false ∧
      (env.mkGpio num d).failRead = false)
    (acc : List (Nat × Entry) × List (String × String × Bool)) (p : PinSpec)
    (hacc : ∀ (n : Nat) (e : Entry), alookup n acc.1 = some e →
      e.meta.direction = Dir.output →
      e.gpio.readSyncRes = some (initialValue st n) ∧
      (env.mqttPfx ++ "/" ++ toString n ++ "/state",
        if initialValue st n = 0 then "OFF" else "ON", true) ∈ acc.2) :
    ∀ (n : Nat) (e : Entry), alookup n (setupStep env st acc p).1 = some e →
      e.meta.direction = Dir.output →
      e.gpio.readSyncRes = some (initialValue st n) ∧
      (env.mqttPfx ++ "/" ++ toString n ++ "/state",
        if initialValue st n = 0 then "OFF" else "ON", true)
        ∈ (setupStep env st acc p).2 := by
  intro n e hl he
  rcases hdd : normDir p.direction with _ | _
  · rw [setupStep_in env st acc p hdd] at hl ⊢
    by_cases hn : p.number = n
    · subst hn
      rw [alookup_ainsert_self] at hl
      cases hl
      exact absurd he (by simp)
    · rw [alookup_ainsert_ne _ _ _ _ hn] at hl
      exact hacc n e hl he
  · rw [setupStep_out env st acc p hdd] at hl ⊢
    by_cases hn : p.number = n
    · subst hn
      rw [alookup_ainsert_self] at hl
      cases hl
      constructor
      · have h1 := (hmk p.number Dir.output).1
        have h2 := (hmk p.number Dir.output).2
        have hfr : ((env.mkGpio p.number Dir.output).writeSync
            (initialValue st p.number)).failRead = false := by
          rw [writeSync_failRead]; exact h2
        rw [readSyncRes_of_ok _ hfr, writeSync_value_of_ok _ _ h1]
      · simp [publishMqtt, hmq]
    · rw [alookup_ainsert_ne _ _ _ _ hn] at hl
      obtain ⟨h1, h2⟩ := hacc n e hl he
      refine ⟨h1, ?_⟩
      simp only [publishMqtt, hmq, if_true]
      exact List.mem_append_left _ h2

theorem setup_fold_inv (env : Env) (st : List (String × Nat))
    (hmq : env.mqttEnabled = true)
    (hmk : ∀ (num : Nat) (d : Dir), (env.mkGpio num d).failWrite = false ∧
      (env.mkGpio num d).failRead = false) :
    ∀ (l : List PinSpec)
      (acc : List (Nat × Entry) × List (String × String × Bool)),
      (∀ (n : Nat) (e : Entry), alookup n acc.1 = some e →
        e.meta.direction = Dir.output →
        e.gpio.readSyncRes = some (initialValue st n) ∧
        (env.mqttPfx ++ "/" ++ toString n ++ "/state",
          if initialValue st n = 0 then "OFF" else "ON", true) ∈ acc.2) →
      ∀ (n : Nat) (e : Entry),
        alookup n (l.foldl (setupStep env st) acc).1 = some e →
        e.meta.direction = Dir.output →
        e.gpio.readSyncRes = some (initialValue st n) ∧
        (env.mqttPfx ++ "/" ++ toString n ++ "/state",
          if initialValue st n = 0 then "OFF" else "ON", true)
          ∈ (l.foldl (setupStep env st) acc).2 := by
  intro l
  induction l with
  | nil => intro acc hacc; exact hacc
  | cons p l ih =>
    intro acc hacc
    rw [List.foldl_cons]
    exact ih (setupStep env st acc p)
      (setupStep_preserves env st hmq hmk acc p hacc)

/-- C5: after a registry rebuild with a well-formed prior state (values 0
or 1), every pin registered as out holds the prior state value for its
number (0 when absent) as its adapter reading, and that value was published
downstream as a retained state message. -/
theorem rebuild_initial_values (env : Env) (cfg : Config)
    (st : List (String × Nat)) (n : Nat) (e : Entry)
    (hmq : env.mqttEnabled = true)
    (hmk : ∀ (num : Nat) (d : Dir), (env.mkGpio num d).failWrite = false ∧
      (env.mkGpio num d).failRead = false)
    (hwf : ∀ (k : String) (w : Nat), alookup k st = some w → w ≤ 1)
    (hlook : alookup n (setupPins env cfg st).1 = some e)
    (hdir : e.meta.direction = Dir.output) :
    e.gpio.readSyncRes = some ((alookup (toString n) st).getD 0) ∧
    (env.mqttPfx ++ "/" ++ toString n ++ "/state",
      if (alookup (toString n) st).getD 0 = 0 then "OFF" else "ON", true)
      ∈ (setupPins env cfg st).2 := by
  have hinit : initialValue st n = (alookup (toString n) st).getD 0 := by
    unfold initialValue
    rcases hh : alookup (toString n) st with _ | w
    · simp [hh]
    · have hb := hwf _ _ hh
      have hw01 : w = 0 ∨ w = 1 := by omega
      rcases hw01 with rfl | rfl <;> simp [hh]
  have h := setup_fold_inv env st hmq hmk cfg.pins ([], [])
    (by intro n e hl; simp [alookup] at hl) n e hlook hdir
  rw [hinit] at h
  exact h

/-- C5 witness: the configuration with the single out pin 17, rebuilt once
against the empty prior state (reads 0, OFF published retained) and once
against the prior state mapping 17 to 1 (reads 1, ON published
retained). -/
theorem rebuild_initial_values_witness :
    (∃ e, alookup 17 (setupPins env0 cfg17 []).1 = some e ∧
      e.gpio.readSyncRes = some 0) ∧
    ("home/gpio" ++ "/" ++ toString 17 ++ "/state", "OFF", true)
      ∈ (setupPins env0 cfg17 []).2 ∧
    (∃ e, alookup 17 (setupPins env0 cfg17 [("17", 1)]).1 = some e ∧
      e.gpio.readSyncRes = some 1) ∧
    ("home/gpio" ++ "/" ++ toString 17 ++ "/state", "ON", true)
      ∈ (setupPins env0 cfg17 [("17", 1)]).2 := by
  have hmk : ∀ (num : Nat) (d : Dir),
      (env0.mkGpio num d).failWrite = false ∧
      (env0.mkGpio num d).failRead = false := by
    intro num d; exact ⟨rfl, rfl⟩
  have hwf0 : ∀ (k : String) (w : Nat),
      alookup k ([] : List (String × Nat)) = some w → w ≤ 1 := by
    intro k w hk; simp [alookup] at hk
  have hwf1 : ∀ (k : String) (w : Nat),
      alookup k [("17", 1)] = some w → w ≤ 1 := by
    intro k w hk
    unfold alookup at hk
    split at hk
    · simp at hk; omega
    · simp [alookup] at hk
  have h1 := rebuild_initial_values env0 cfg17 [] 17 _ rfl hmk hwf0 rfl rfl
  have h2 := rebuild_initial_values env0 cfg17 [("17", 1)] 17 _ rfl hmk hwf1
    rfl rfl
  exact ⟨⟨_, rfl, h1.1⟩, h1.2, ⟨_, rfl, h2.1⟩, h2.2⟩

theorem onToggle_eq (s : V1Sys) (pin : String) (e : V1Entry)
    (hlook : alookup pin s.pins = some e)
    (hdir : e.direction = Dir.output) :
    onToggle pin s =
      { s with
        pins := ainsert pin
          { e with gpio := e.gpio.writeSync (e.gpio.value ^^^ 1) } s.pins,
        savedState := ainsert pin (e.gpio.value ^^^ 1) s.savedState,
        stateFile := FileContent.json
          (encodeState (ainsert pin (e.gpio.value ^^^ 1) s.savedState)),
        statusEmits := s.statusEmits + 1,
        publishes := s.publishes ++
          [("home/gpio/" ++ pin ++ "/state",
            if e.gpio.value ^^^ 1 = 0 then "OFF" else "ON")] } := by
  simp [onToggle, hlook, hdir, saveStateV1]

/-- C10 counterexample: from a fresh first-variant state where out pin 17
reads 0 and the state document is empty, two toggles bring the adapter back
to 0 but leave a new persisted entry mapping 17 to 0, so the persisted
state entry (and the state document) is not restored to what it was. -/
theorem toggle_twice_fresh_state_refutes :
    alookup "17" v1ex.savedState = none ∧
    alookup "17" (onToggle "17" (onToggle "17" v1ex)).savedState = some 0 ∧
    (∃ e2, alookup "17" (onToggle "17" (onToggle "17" v1ex)).pins = some e2 ∧
      e2.gpio.value = 0) ∧
    v1ex.stateFile = FileContent.json (Json.obj []) ∧
    (onToggle "17" (onToggle "17" v1ex)).stateFile =
      FileContent.json (Json.obj [("17", Json.num 0)]) ∧
    (onToggle "17" (onToggle "17" v1ex)).stateFile ≠ v1ex.stateFile := by
  refine ⟨rfl, by decide, ⟨_, rfl, rfl⟩, rfl, rfl, ?_⟩
  intro hcontra
  rw [show (onToggle "17" (onToggle "17" v1ex)).stateFile =
        FileContent.json (Json.obj [("17", Json.num 0)]) from rfl,
      show v1ex.stateFile = FileContent.json (Json.obj []) from rfl]
    at hcontra
  injection hcontra with h2
  injection h2 with h3
  exact List.noConfusion h3

/-- C10 (amended): in the first variant, toggling an out pin twice with no
intervening change restores the adapter value to its original level, and
leaves the persisted state entry for the pin equal to that original level;
the prior persisted entry is therefore restored whenever it was already
present and equal to the adapter level, while an absent entry is created
instead. -/
theorem toggle_twice_involution (s : V1Sys) (pin : String) (e : V1Entry)
    (hlook : alookup pin s.pins = some e)
    (hdir : e.direction = Dir.output)
    (hw : e.gpio.failWrite = false) :
    (∃ e2, alookup pin (onToggle pin (onToggle pin s)).pins = some e2 ∧
      e2.gpio.value = e.gpio.value ∧ e2.direction = Dir.output) ∧
    alookup pin (onToggle pin (onToggle pin s)).savedState =
      some e.gpio.value ∧
    (alookup pin s.savedState = some e.gpio.value →
      alookup pin (onToggle pin (onToggle pin s)).savedState =
        alookup pin s.savedState) := by
  have h1 := onToggle_eq s pin e hlook hdir
  have hlook2 : alookup pin (onToggle pin s).pins =
      some { e with gpio := e.gpio.writeSync (e.gpio.value ^^^ 1) } := by
    rw [h1]; exact alookup_ainsert_self _ _ _
  have h2 := onToggle_eq (onToggle pin s) pin
    { e with gpio := e.gpio.writeSync (e.gpio.value ^^^ 1) } hlook2 hdir
  have hw2 : (e.gpio.writeSync (e.gpio.value ^^^ 1)).failWrite = false := by
    rw [writeSync_failWrite]; exact hw
  have hback : (e.gpio.writeSync (e.gpio.value ^^^ 1)).value ^^^ 1 =
      e.gpio.value := by
    rw [writeSync_value_of_ok _ _ hw, Nat.xor_cancel_right]
  have hs2 : alookup pin (onToggle pin (onToggle pin s)).savedState =
      some e.gpio.value := by
    rw [h2]
    show alookup pin (ainsert pin
      ((e.gpio.writeSync (e.gpio.value ^^^ 1)).value ^^^ 1)
      (onToggle pin s).savedState) = some e.gpio.value
    rw [hback]
    exact alookup_ainsert_self _ _ _
  have hpins : alookup pin (onToggle pin (onToggle pin s)).pins =
      some { e with gpio := ((e.gpio.writeSync (e.gpio.value ^^^ 1)).writeSync
        ((e.gpio.writeSync (e.gpio.value ^^^ 1)).value ^^^ 1)) } := by
    rw [h2]
    exact alookup_ainsert_self _ _ _
  have hval : ({ e with gpio :=
      ((e.gpio.writeSync (e.gpio.value ^^^ 1)).writeSync
        ((e.gpio.writeSync (e.gpio.value ^^^ 1)).value ^^^ 1)) } :
      V1Entry).gpio.value = e.gpio.value := by
    show ((e.gpio.writeSync (e.gpio.value ^^^ 1)).writeSync
      ((e.gpio.writeSync (e.gpio.value ^^^ 1)).value ^^^ 1)).value =
        e.gpio.value
    rw [writeSync_value_of_ok _ _ hw2, hback]
  refine ⟨⟨_, hpins, hval, hdir⟩, hs2, ?_⟩
  intro hprev
  rw [hs2, hprev]

/-- C10 witness: the concrete first-variant state whose saved state already
maps 17 to the adapter level 1; two toggles restore both. -/
theorem toggle_twice_involution_witness :
    (∃ e2, alookup "17" (onToggle "17" (onToggle "17" v1c)).pins = some e2 ∧
      e2.gpio.value = 1 ∧ e2.direction = Dir.output) ∧
    alookup "17" (onToggle "17" (onToggle "17" v1c)).savedState = some 1 := by
  have h := toggle_twice_involution v1c "17" _ rfl rfl rfl
  exact ⟨h.1, h.2.1⟩

end GreenSpring
